import Mathlib

-- Verification of the region-based slab allocator in src/region.c and
-- src/region.h. The allocator addresses everything by byte offset from the
-- region base, and several of its code paths read and write raw bytes whose
-- meaning depends on aliasing (bitmap probes landing inside slab pages, the
-- next-free-object word stored in the first bytes of each free slot). The
-- embedding therefore models the region as byte-addressed memory: a map from
-- byte offset to byte value. All C struct field accesses are little-endian
-- word reads/writes at the exact x86-64 SysV offsets of the structs declared
-- in region.c. size_t / uintptr_t arithmetic is Nat with explicit reduction
-- modulo 2^64 where the C code can wrap.

namespace Region

/-- One store performed on the region's memory: either an explicit run of
byte values written at an offset, or a run of zero bytes (memset). -/
inductive Store where
  | bytes (off : Nat) (data : List Nat)
  | zeros (off len : Nat)
deriving DecidableEq

/-- Byte-addressed memory: the log of stores performed on the region, most
recent first, over initially zeroed bytes. region_init assumes the caller
supplies zeroed pages (fresh ftruncate-backed mappings are zero; see the
spec, section 9), so the empty log is the all-zero memory. -/
abbrev Mem := List Store

/-- The all-zero memory. -/
def zeroMem : Mem := []

/-- The byte stored at offset j: the most recent store covering j, else 0. -/
def readByte : Mem → Nat → Nat
  | [], _ => 0
  | Store.bytes off data :: m, j =>
    if off ≤ j ∧ j < off + data.length then data.getD (j - off) 0 else readByte m j
  | Store.zeros off len :: m, j =>
    if off ≤ j ∧ j < off + len then 0 else readByte m j

/-- 2^64, the modulus of size_t / uintptr_t arithmetic. -/
def W64 : Nat := 18446744073709551616

/-- 2^64 - 1, the all-ones 64-bit word. -/
def U64MAX : Nat := 18446744073709551615

/-- PAGE_SIZE from region.c. -/
def PAGE_SIZE : Nat := 4096

/-- PAGE_MASK = ~(PAGE_SIZE - 1) interpreted as a 64-bit value. -/
def PAGE_MASK : Nat := W64 - PAGE_SIZE

/-- Read the 64-bit little-endian word stored at byte offset off. -/
def readWord (m : Mem) (off : Nat) : Nat :=
  readByte m off + 256 * (readByte m (off + 1) + 256 * (readByte m (off + 2) +
    256 * (readByte m (off + 3) + 256 * (readByte m (off + 4) +
    256 * (readByte m (off + 5) + 256 * (readByte m (off + 6) +
    256 * readByte m (off + 7)))))))

/-- The width little-endian bytes of value v. -/
def toBytesLE (width v : Nat) : List Nat :=
  (List.range width).map (fun i => v / 256 ^ i % 256)

/-- Store value v little-endian into the width bytes starting at off. -/
def writeBytesLE (m : Mem) (off width v : Nat) : Mem :=
  Store.bytes off (toBytesLE width v) :: m

/-- Store a 64-bit word (uintptr_t / size_t); high bits of v are dropped,
which is exactly the reduction modulo 2^64 that a C store performs. -/
def writeWord (m : Mem) (off v : Nat) : Mem := writeBytesLE m off 8 v

/-- Store a 16-bit field (uint16_t). -/
def writeWord16 (m : Mem) (off v : Nat) : Mem := writeBytesLE m off 2 v

/-- memset(base + off, 0, len). -/
def memsetZero (m : Mem) (off len : Nat) : Mem := Store.zeros off len :: m

/-- ptr[i] |= v for a byte array (used for the bitmap update in allocate_slab). -/
def orByte (m : Mem) (i v : Nat) : Mem :=
  Store.bytes i [(readByte m i ||| v) % 256] :: m

/-- memcpy of a list of byte values to offset off (used for cache names). -/
def writeList (m : Mem) (off : Nat) (l : List Nat) : Mem := Store.bytes off l :: m

/-- size_t increment (wraps at 2^64). -/
def inc64 (x : Nat) : Nat := (x + 1) % W64

/-- size_t decrement (wraps at 2^64). -/
def dec64 (x : Nat) : Nat := (x + U64MAX) % W64

-- Struct layouts (x86-64 SysV ABI) for the structs in region.c.
-- struct region { size_t size; uintptr_t pages; uintptr_t free_page;
--   struct { struct bitset bitset; } heap;
--   struct { struct bitset bitset; size_t count; struct cache cache[20]; } caches; };
-- struct bitset { uintptr_t bits; size_t size; };

/-- Offset of region->size. -/
def off_size : Nat := 0
/-- Offset of region->pages. -/
def off_pages : Nat := 8
/-- Offset of region->free_page. -/
def off_free_page : Nat := 16
/-- Offset of region->heap.bitset.bits. -/
def off_heap_bits : Nat := 24
/-- Offset of region->heap.bitset.size. -/
def off_heap_size : Nat := 32
/-- Offset of region->caches.bitset.bits. -/
def off_caches_bits : Nat := 40
/-- Offset of region->caches.bitset.size. -/
def off_caches_size : Nat := 48
/-- Offset of region->caches.count. -/
def off_caches_count : Nat := 56

/-- sizeof(struct cache): name[16] + three slab_lists (16 each) + two uint16 +
4 bytes padding + size_t aligned_size + size_t object_count = 88. -/
def sizeof_cache : Nat := 88

/-- sizeof(struct region) = 64 + 20 * 88 = 1824. -/
def sizeof_region : Nat := 1824

/-- sizeof(struct slab) = 56. -/
def sizeof_slab : Nat := 56

/-- Offset of region->caches.cache[i]. -/
def cache_base (i : Nat) : Nat := 64 + sizeof_cache * i

-- cache field offsets relative to the cache descriptor base
def c_full_list : Nat := 16
def c_full_count : Nat := 24
def c_partial_list : Nat := 32
def c_partial_count : Nat := 40
def c_free_list : Nat := 48
def c_free_count : Nat := 56
def c_object_size : Nat := 64
def c_alignment : Nat := 66
def c_aligned_size : Nat := 72
def c_object_count : Nat := 80

-- slab field offsets relative to the slab (page) base
def s_cache : Nat := 8
def s_list : Nat := 16
def s_next : Nat := 24
def s_objects : Nat := 32
def s_fol : Nat := 40
def s_foc : Nat := 48

/-- aligned_size from region.c. -/
def aligned_size (size align : Nat) : Nat :=
  let align := if align = 0 then 8 else align
  if size < align then align
  else align * ((size + (align - 1)) / align)

-- Byte values of the C string literals in alloc_caches (ASCII codes).

/-- Bytes of "region_alloc-8". -/
def name_alloc8 : List Nat := [114, 101, 103, 105, 111, 110, 95, 97, 108, 108, 111, 99, 45, 56]
/-- Bytes of "region_alloc-16". -/
def name_alloc16 : List Nat := [114, 101, 103, 105, 111, 110, 95, 97, 108, 108, 111, 99, 45, 49, 54]
/-- Bytes of "region_alloc-32". -/
def name_alloc32 : List Nat := [114, 101, 103, 105, 111, 110, 95, 97, 108, 108, 111, 99, 45, 51, 50]
/-- Bytes of "region_alloc-64". -/
def name_alloc64 : List Nat := [114, 101, 103, 105, 111, 110, 95, 97, 108, 108, 111, 99, 45, 54, 52]
/-- Bytes of "region_alloc-128". -/
def name_alloc128 : List Nat := [114, 101, 103, 105, 111, 110, 95, 97, 108, 108, 111, 99, 45, 49, 50, 56]
/-- Bytes of "region_alloc-256". -/
def name_alloc256 : List Nat := [114, 101, 103, 105, 111, 110, 95, 97, 108, 108, 111, 99, 45, 50, 53, 54]

/-- cache_init from region.c: claims slot caches.count (post-incrementing it),
zeroes the descriptor, copies at most 15 name bytes, and fills the size
fields. object_count = (PAGE_SIZE - sizeof(struct slab)) / aligned_size. -/
def cache_init (m : Mem) (name : List Nat) (size align : Nat) : Mem :=
  let id := readWord m off_caches_count
  let m := writeWord m off_caches_count (inc64 id)
  let cb := cache_base id
  let slab_space := PAGE_SIZE - sizeof_slab
  let name_length := min name.length 15
  let m := memsetZero m cb sizeof_cache
  let m := writeList m cb (name.take name_length)
  let m := writeWord16 m (cb + c_object_size) size
  let m := writeWord16 m (cb + c_alignment) align
  let asz := aligned_size size align
  let m := writeWord m (cb + c_aligned_size) asz
  writeWord m (cb + c_object_count) (slab_space / asz)

/-- Header size rounded as in region_init:
pages = ((sizeof(struct region) + PAGE_SIZE) / PAGE_SIZE) * PAGE_SIZE = 4096. -/
def header_pages : Nat := ((sizeof_region + PAGE_SIZE) / PAGE_SIZE) * PAGE_SIZE

/-- Number of preconfigured caches (alloc_caches has 6 entries). -/
def num_alloc_caches : Nat := 6

/-- region_init from region.c, acting on zeroed memory. Returns none exactly
where the C function returns NULL; otherwise the region's memory content.
The address argument only participates in the alignment test, as in C. -/
def region_init (address size : Nat) : Option Mem :=
  if address &&& PAGE_MASK ≠ address then none
  else if size &&& PAGE_MASK ≠ size ∨ size < header_pages ∨
      size / PAGE_SIZE ≤ num_alloc_caches then none
  else
    let m := zeroMem
    let size_pages := size / PAGE_SIZE
    let bitmap_size := (size / PAGE_SIZE + 7) &&& (W64 - 8)
    let unused_space := (PAGE_SIZE - sizeof_region) >>> 1
    let layout : Option Mem :=
      if bitmap_size < unused_space then
        let m := writeWord m off_heap_bits (PAGE_SIZE - (bitmap_size <<< 1))
        let m := writeWord m off_heap_size bitmap_size
        let m := writeWord m off_caches_bits (PAGE_SIZE - bitmap_size)
        some (writeWord m off_caches_size bitmap_size)
      else
        let bitmap_pages := ((bitmap_size <<< 1) + (PAGE_SIZE - 1)) / PAGE_SIZE
        if size_pages ≤ bitmap_pages + num_alloc_caches then none
        else
          let m := writeWord m off_heap_bits (size - PAGE_SIZE * bitmap_pages)
          let m := writeWord m off_heap_size bitmap_size
          let m := writeWord m off_caches_bits (size - ((PAGE_SIZE * bitmap_pages) >>> 2))
          some (writeWord m off_caches_size bitmap_size)
    match layout with
    | none => none
    | some m =>
      let m := writeWord m off_size size
      let m := writeWord m off_caches_count 0
      let m := writeWord m off_pages header_pages
      let m := writeWord m off_free_page header_pages
      let m := cache_init m name_alloc8 8 8
      let m := cache_init m name_alloc16 16 8
      let m := cache_init m name_alloc32 32 8
      let m := cache_init m name_alloc64 64 8
      let m := cache_init m name_alloc128 128 8
      some (cache_init m name_alloc256 256 8)

/-- get_bit from region.c, byte for byte: reads ptr[bit >> 3] and masks it
with 1 << ((bit ^ 7) & 0xf). The size parameter is unused, as in the C code. -/
def get_bit (m : Mem) (bits size bit : Nat) : Nat :=
  readByte m (bits + (bit >>> 3)) &&& (1 <<< ((bit ^^^ 7) &&& 15))

/-- is_cache_object from region.c: probes the heap bitset with
bit = object & PAGE_MASK (the page-aligned byte offset, not a page index). -/
def is_cache_object (m : Mem) (object : Nat) : Bool :=
  get_bit m (readWord m off_heap_bits) (readWord m off_heap_size) (object &&& PAGE_MASK) ≠ 0

/-- is_heap_object from region.c: probes the caches bitset with
bit = object & PAGE_MASK. -/
def is_heap_object (m : Mem) (object : Nat) : Bool :=
  get_bit m (readWord m off_caches_bits) (readWord m off_caches_size) (object &&& PAGE_MASK) ≠ 0

/-- is_object from region.c. -/
def is_object (m : Mem) (object : Nat) : Bool :=
  if object ≤ readWord m off_pages ∨ readWord m off_size ≤ object then false
  else if object &&& 7 ≠ 0 then false
  else if ¬is_cache_object m object ∧ ¬is_heap_object m object then false
  else true

/-- __builtin_ctzll: index of the least significant set bit (64 if none below 64). -/
def ctz64 (x : Nat) : Nat := ((List.range 64).find? (fun i => x.testBit i)).getD 64

/-- The 64-bit-block scan loop of allocate_page:
for (; bits == (uint64_t)-1 && block <= last_block; block++)
  bits = heap_bits[block] | cache_bits[block];
The fuel passed by allocate_page exceeds the maximum iteration count, so
the recursion reproduces the C loop exactly. -/
def scan_blocks (m : Mem) (hb cb last : Nat) : Nat → Nat → Nat → Nat × Nat
  | 0, block, bits => (block, bits)
  | Nat.succ fuel, block, bits =>
    if bits = U64MAX ∧ block ≤ last then
      scan_blocks m hb cb last fuel (block + 1)
        (readWord m (hb + 8 * block) ||| readWord m (cb + 8 * block))
    else (block, bits)

/-- allocate_page from region.c: returns the current free_page and recomputes
the free-page hint with the 64-bit scan, exactly as the source does (including
its use of (bit + 1) & -64 as a word index and (block + ctz) * PAGE_SIZE as
the next hint). -/
def allocate_page (m : Mem) : Nat × Mem :=
  let page := readWord m off_free_page
  if page = 0 then (0, m)
  else
    let bit := page / PAGE_SIZE
    let block := (bit + 1) &&& (W64 - 64)
    let last_block := readWord m off_heap_size &&& (W64 - 64)
    let bits := if block < bit then 1 <<< ((bit ^^^ 63) &&& 63) else 0
    let hb := readWord m off_heap_bits
    let cb := readWord m off_caches_bits
    let bits := bits ||| readWord m (hb + 8 * block) ||| readWord m (cb + 8 * block)
    let block := block + 1
    let scanned := scan_blocks m hb cb last_block (last_block + 2) block bits
    let block := scanned.1
    let bits := scanned.2
    let bits := if block = last_block + 1 then
        bits ||| (1 <<< ((readWord m off_heap_size ^^^ 63) &&& 63))
      else bits
    let m := if bits ≠ U64MAX then
        writeWord m off_free_page ((block + ctz64 (U64MAX ^^^ bits)) * PAGE_SIZE)
      else writeWord m off_free_page 0
    (page, m)

/-- The object-threading loop of allocate_slab:
object starts at objects + (object_count - 1) * aligned_size and walks down,
storing the previous offset in each slot; the slot at objects itself is never
written. k counts the slots still above objects. -/
def thread_slots (objects asize : Nat) : Nat → Nat → Mem → Mem
  | 0, _, m => m
  | Nat.succ k, next_object, m =>
    let object := objects + Nat.succ k * asize
    thread_slots objects asize k object (writeWord m object next_object)

/-- allocate_slab from region.c: takes a page, marks it in the caches bitmap,
zeroes the page past its first word, formats the slab header (with
objects = slab_offset + PAGE_SIZE - (object_count - 1) * aligned_size, as the
source computes it), threads the free list and prepends to free_slabs. -/
def allocate_slab (m : Mem) (ci : Nat) : Nat × Mem :=
  let r := allocate_page m
  let slab_offset := r.1
  let m := r.2
  if slab_offset = 0 then (0, m)
  else
    let cb := cache_base ci
    let bits := readWord m off_caches_bits
    let bit := slab_offset / PAGE_SIZE
    let m := orByte m (bits + bit / 8) (1 <<< (7 - bit % 8))
    let m := memsetZero m (slab_offset + 8) (PAGE_SIZE - 8)
    let m := writeWord m (slab_offset + s_cache) cb
    let m := writeWord m (slab_offset + s_list) (cb + c_free_list)
    let m := writeWord m (slab_offset + s_next) (readWord m (cb + c_free_list))
    let object_count := readWord m (cb + c_object_count)
    let asize := readWord m (cb + c_aligned_size)
    let objects := slab_offset + (PAGE_SIZE - (object_count - 1) * asize)
    let m := writeWord m (slab_offset + s_objects) objects
    let m := writeWord m (slab_offset + s_fol) objects
    let m := writeWord m (slab_offset + s_foc) object_count
    let m := thread_slots objects asize (object_count - 1) 0 m
    let m := writeWord m (cb + c_free_list) slab_offset
    let m := writeWord m (cb + c_free_count) (inc64 (readWord m (cb + c_free_count)))
    (slab_offset, m)

/-- The common tail of cache_alloc: decrement the slab's free count, pop the
free-list head, and load the next-object word stored in the popped slot. -/
def pop_object (m : Mem) (slab_offset : Nat) : Nat × Mem :=
  let m := writeWord m (slab_offset + s_foc) (dec64 (readWord m (slab_offset + s_foc)))
  let object_offset := readWord m (slab_offset + s_fol)
  let m := writeWord m (slab_offset + s_fol) (readWord m object_offset)
  (object_offset, m)

/-- cache_alloc from region.c. -/
def cache_alloc (m : Mem) (ci : Nat) : Nat × Mem :=
  let cb := cache_base ci
  if readWord m (cb + c_partial_list) ≠ 0 then
    let slab_offset := readWord m (cb + c_partial_list)
    let m :=
      if readWord m (slab_offset + s_foc) = 1 then
        let m := writeWord m (cb + c_partial_count) (dec64 (readWord m (cb + c_partial_count)))
        let m := writeWord m (cb + c_partial_list) (readWord m (slab_offset + s_next))
        -- slab->list = slab->next = cache->full_slabs.list
        let m := writeWord m (slab_offset + s_list) (readWord m (cb + c_full_list))
        let m := writeWord m (slab_offset + s_next) (readWord m (cb + c_full_list))
        let m := writeWord m (cb + c_full_count) (inc64 (readWord m (cb + c_full_count)))
        writeWord m (cb + c_full_list) slab_offset
      else m
    pop_object m slab_offset
  else
    let step :=
      if readWord m (cb + c_free_list) = 0 then
        let r := allocate_slab m ci
        ((r.1 != 0), r.2)
      else (true, m)
    let m := step.2
    if step.1 = false then (0, m)
    else
      let slab_offset := readWord m (cb + c_free_list)
      let m := writeWord m (cb + c_free_count) (dec64 (readWord m (cb + c_free_count)))
      let m := writeWord m (cb + c_free_list) (readWord m (slab_offset + s_next))
      let m :=
        if readWord m (slab_offset + s_foc) = 1 then
          -- slab->list = unswizzle(region, &cache->full_slabs)
          let m := writeWord m (slab_offset + s_list) (cb + c_full_list)
          let m := writeWord m (slab_offset + s_next) (readWord m (cb + c_full_list))
          let m := writeWord m (cb + c_full_count) (inc64 (readWord m (cb + c_full_count)))
          writeWord m (cb + c_full_list) slab_offset
        else
          let m := writeWord m (slab_offset + s_list) (cb + c_partial_list)
          let m := writeWord m (slab_offset + s_next) (readWord m (cb + c_partial_list))
          let m := writeWord m (cb + c_partial_count) (inc64 (readWord m (cb + c_partial_count)))
          writeWord m (cb + c_partial_list) slab_offset
      pop_object m slab_offset

/-- The double-free detection loop of cache_free:
for (uintptr_t free_object = slab->free_objects.list; free_object; )
  memcmp(&free_object, swizzle(region, free_object), uintptr_size);
memcmp compares and discards its result, so free_object is never updated and
the loop only exits when the initial value is already 0. The fuel argument
makes the divergence observable: false means the fuel ran out with the loop
still running. -/
def df_scan (fuel : Nat) (free_object : Nat) : Bool :=
  match fuel with
  | 0 => false
  | Nat.succ f => if free_object = 0 then true else df_scan f free_object

/-- cache_free from region.c (release semantics: asserts are no-ops). Returns
none when the double-free scan fails to terminate within the given fuel. -/
def cache_free (fuel : Nat) (m : Mem) (ci object : Nat) : Option Mem :=
  let slab_offset := object &&& PAGE_MASK
  let cb := cache_base ci
  if df_scan fuel (readWord m (slab_offset + s_fol)) = false then none
  else
    let m := writeWord m object (readWord m (slab_offset + s_fol))
    let m := writeWord m (slab_offset + s_fol) object
    let m := writeWord m (slab_offset + s_foc) (inc64 (readWord m (slab_offset + s_foc)))
    if readWord m (slab_offset + s_foc) ≠ readWord m (cb + c_object_count) then some m
    else
      let m :=
        if readWord m (cb + c_partial_list) = slab_offset then
          let m := writeWord m (cb + c_partial_count) (dec64 (readWord m (cb + c_partial_count)))
          writeWord m (cb + c_partial_list) (readWord m (slab_offset + s_next))
        else m
      let m := writeWord m (slab_offset + s_next) (readWord m (cb + c_free_list))
      let m := writeWord m (cb + c_free_count) (inc64 (readWord m (cb + c_free_count)))
      some (writeWord m (cb + c_free_list) slab_offset)

/-- object_cache from region.c: reads the slab's cache back-offset and turns
it into a cache index via pointer-difference division by sizeof(struct cache). -/
def object_cache (m : Mem) (object : Nat) : Nat :=
  let cache_offset := readWord m ((object &&& PAGE_MASK) + s_cache)
  (cache_offset - 64) / sizeof_cache

/-- alloc_size_index from region.c. -/
def alloc_size_index : List Nat :=
  [0, 1, 2, 2, 3, 3, 3, 3, 4, 4, 4, 4, 4, 4, 4, 4,
   5, 5, 5, 5, 5, 5, 5, 5, 5, 5, 5, 5, 5, 5, 5, 5]

/-- small_object_cache from region.c. -/
def small_object_cache (size : Nat) : Nat := alloc_size_index.getD ((size - 1) >>> 3) 0

/-- is_small_object_size from region.c. -/
def is_small_object_size (size : Nat) : Bool := size ≤ 256

/-- region_alloc from region.c. The heap path for sizes above 256 is compiled
out in the source (#if 0), so the function only has the small-object branch. -/
def region_alloc (m : Mem) (size : Nat) : Nat × Mem :=
  if is_small_object_size size then
    if size = 0 then (0, m)
    else cache_alloc m (small_object_cache size)
  else (0, m)

/-- region_free from region.c (the heap branch is compiled out in the source).
Returns none when cache_free's double-free scan does not terminate within fuel. -/
def region_free (fuel : Nat) (m : Mem) (object : Nat) : Option Mem :=
  if object ≤ readWord m off_pages ∨ readWord m off_size ≤ object then some m
  else if object &&& 7 ≠ 0 then some m
  else if is_cache_object m object then cache_free fuel m (object_cache m object) object
  else some m

/-- swizzle from region.h: address = region base + offset, in uintptr_t
arithmetic. -/
def swizzle (base object : Nat) : Nat := (base + object) % W64

/-- unswizzle from region.h: offset = address - region base, in uintptr_t
arithmetic (modular subtraction). -/
def unswizzle (base address : Nat) : Nat := (address + (W64 - base % W64)) % W64

-- Spec-side bitmap predicates, used to compare is_object against the bitmap
-- semantics the specification describes.

/-- Modelled from the spec, section 4.2: bit k of a bitmap is
byte[k / 8] masked with 1 << (7 - k % 8) (MSB-first within each byte). -/
def spec_bitmap_bit (m : Mem) (base k : Nat) : Bool :=
  readByte m (base + k / 8) &&& (1 <<< (7 - k % 8)) ≠ 0

/-- Modelled from the spec, section 4.1, condition (d) of is_object: the page
containing the offset is marked in exactly one of the two bitmaps. -/
def spec_marked_exactly_one (m : Mem) (object : Nat) : Bool :=
  let p := object / PAGE_SIZE
  spec_bitmap_bit m (readWord m off_heap_bits) p ≠
    spec_bitmap_bit m (readWord m off_caches_bits) p

/-- Walk a slab free-object list from head, collecting the visited slots,
stopping at the 0 terminator (fuel-bounded). -/
def free_chain (m : Mem) : Nat → Nat → List Nat
  | 0, _ => []
  | Nat.succ f, head => if head = 0 then [] else head :: free_chain m f (readWord m head)

-- Concrete scenario A: a zeroed 7-page region (28672 bytes) at a page-aligned
-- base, followed by region_alloc(region, 256). Sizes are minimal: region_init
-- requires size / PAGE_SIZE > 6.

/-- The region memory produced by region_init(0, 28672). -/
def init7 : Mem := (region_init 0 28672).getD zeroMem

/-- region_alloc(region, 256) on the fresh 7-page region. -/
def alloc7 : Nat × Mem := region_alloc init7 256

/-- Memory after the first region_alloc(region, 256). -/
def m7a : Mem := alloc7.2

/-- allocate_slab on the fresh 7-page region for cache 5 (the 256-byte cache),
the slab-formatting step in isolation. -/
def slab7 : Nat × Mem := allocate_slab init7 5

-- Concrete scenario B: a zeroed 96-page region (393216 bytes), followed by
-- region_alloc(region, 64) and region_free of the returned offset. In this
-- region the byte probed by is_cache_object for page-1 objects is offset
-- 4416, which falls on a threaded free-list slot of the cache-3 slab.

/-- The region memory produced by region_init(0, 393216). -/
def init96 : Mem := (region_init 0 393216).getD zeroMem

/-- region_alloc(region, 64) on the fresh 96-page region. -/
def alloc96 : Nat × Mem := region_alloc init96 64

/-- Memory after the first region_alloc(region, 64); the returned offset is 4224. -/
def m96a : Mem := alloc96.2

/-- Memory after region_free(region, 4224) on m96a (the free succeeds and
pushes 4224 back; fuel 10 is ample since the slab free list is empty here). -/
def m96f : Mem := (region_free 10 m96a 4224).getD zeroMem

-- Helper lemmas

/-- The double-free scan of cache_free never finishes when the slab's
free-object list head is non-zero, because the loop body (memcmp with the
result discarded) does not advance the cursor. -/
lemma df_scan_stuck (fo : Nat) (h : fo ≠ 0) : ∀ fuel, df_scan fuel fo = false := by
  intro fuel
  induction fuel with
  | zero => rfl
  | succ f ih => rw [df_scan, if_neg h]; exact ih

/-- A 64-bit value that is fixed by PAGE_MASK is a multiple of PAGE_SIZE. -/
lemma and_mask_mod (a : Nat) (h : a &&& PAGE_MASK = a) : a % PAGE_SIZE = 0 := by
  have key : a % PAGE_SIZE = a &&& 4095 := by
    have h12 := Nat.and_pow_two_sub_one_eq_mod a 12
    norm_num at h12
    rw [PAGE_SIZE, h12]
  have hz : PAGE_MASK &&& 4095 = 0 := by decide
  rw [key, ← h, Nat.and_assoc, hz, Nat.and_zero]

-- Claim theorems

/-- C1: the claim fails on the code. On a fresh zeroed 7-page region,
region_alloc(region, 256) returns the non-zero offset 4608, yet
is_object(region, 4608) is false immediately after the call: is_object
probes the byte at heap_bits + (4608 & ~4095) / 8 = offset 4592, a zeroed
byte inside the slab page, instead of the page's bitmap bit, so the offset
returned by a successful alloc does not satisfy is_object. -/
theorem c1_alloc_result_fails_is_object :
    (region_init 0 28672).isSome = true ∧
    alloc7.1 = 4608 ∧ alloc7.1 ≠ 0 ∧ is_object m7a 4608 = false := by decide

/-- C2: the claim fails on the code for size 256. On a fresh zeroed 7-page
region, region_alloc(region, 256) returns 4608; region_free(region, 4608) is
a silent no-op (is_cache_object's bitmap probe reads a zeroed slab byte), and
the immediately next region_alloc(region, 256) returns 0, not 4608, because
the slab's threaded free list already hit its this-slot-is-zero head. -/
theorem c2_lifo_reuse_fails :
    alloc7.1 = 4608 ∧ alloc7.1 ≠ 0 ∧
    region_free 10 m7a 4608 = some m7a ∧
    (region_alloc m7a 256).1 = 0 := by decide

/-- C3: the claim fails on the code. In the 96-page scenario, after
region_alloc(region, 64) = 4224 and one successful region_free(region, 4224)
(which makes the slab's free-object list head 4224), a second
region_free(region, 4224) reaches the double-free scan with a non-zero head
and loops forever: the scan's memcmp discards its result and never advances
the cursor, so no amount of fuel makes region_free return. -/
theorem c3_region_free_diverges (fuel : Nat) :
    region_free fuel m96f 4224 = none := by
  rw [region_free, if_neg (by decide), if_neg (by decide), if_pos (by decide)]
  rw [cache_free]
  have hr : readWord m96f ((4224 &&& PAGE_MASK) + s_fol) = 4224 := by decide
  rw [hr, df_scan_stuck 4224 (by decide) fuel, if_pos rfl]

/-- C4: the claim fails on the code. In the state after
region_init(0, 28672) and region_alloc(region, 256): offset 4608 is strictly
greater than pages, strictly less than size, 8-byte aligned, and its page is
marked in exactly one of the two bitmaps (the caches bitmap), yet
is_object(region, 4608) returns false: get_bit is called with the page-aligned
byte offset (4096) as the bit number instead of the page index (1), so it
reads a byte far outside the bitmap. -/
theorem c4_is_object_ignores_page_bitmaps :
    readWord m7a off_pages < 4608 ∧ 4608 < readWord m7a off_size ∧
    (4608 : Nat) &&& 7 = 0 ∧ spec_marked_exactly_one m7a 4608 = true ∧
    is_object m7a 4608 = false := by decide

/-- C5: the claim fails on the code. Formatting a slab for cache 5
(object_size 256, object_count 15, aligned_size 256) at page offset 4096
stores objects = 4608 = slab_offset + page_size - (object_count - 1) *
aligned_size, not the claimed slab_offset + page_size - object_count *
aligned_size = 4352; consequently the slot at the free-list head stores the
terminator 0 and the last in-page slot (7936) stores 8192, an offset past the
page boundary, instead of the claimed threading. -/
theorem c5_slab_format_off_by_one :
    slab7.1 = 4096 ∧
    readWord slab7.2 (cache_base 5 + c_object_count) = 15 ∧
    readWord slab7.2 (cache_base 5 + c_aligned_size) = 256 ∧
    readWord slab7.2 (4096 + s_objects) = 4608 ∧
    readWord slab7.2 (4096 + s_objects) ≠ 4096 + PAGE_SIZE - 15 * 256 ∧
    readWord slab7.2 (4096 + s_fol) = 4608 ∧
    readWord slab7.2 4608 = 0 ∧
    readWord slab7.2 (4608 + 13 * 256) = 8192 := by decide

/-- C6: the claim fails on the code. After the public operation
region_alloc(region, 256) on a fresh 7-page region, the cache-5 slab at 4096
has free_objects.count = 14, but traversing its free-object list from the
head to the 0 terminator visits 0 slots: the threading bug leaves the head
slot zeroed, so the list's length never matches the stored count. -/
theorem c6_free_list_shorter_than_count :
    readWord m7a (4096 + s_foc) = 14 ∧
    (free_chain m7a 20 (readWord m7a (4096 + s_fol))).length = 0 ∧
    (free_chain m7a 20 (readWord m7a (4096 + s_fol))).length ≠
      readWord m7a (4096 + s_foc) := by decide

/-- C7: the claim fails on the code. After the first allocation on a fresh
7-page region, page 1 (offset 4096) is marked in the caches bitmap, yet
free_page still equals 4096 and the next page allocation returns 4096 again:
the scan computes the new hint as (block + ctz) * PAGE_SIZE without scaling
block by 64 and with a bit order inconsistent with the byte-level bitmap, so
the hint never advances to a page whose bits are clear. -/
theorem c7_page_allocator_reissues_marked_page :
    spec_bitmap_bit m7a (readWord m7a off_caches_bits) 1 = true ∧
    readWord m7a off_free_page = 4096 ∧
    (allocate_page m7a).1 = 4096 := by decide

/-- C8: region_init returns null whenever a precondition is violated:
address not page-aligned, size not a multiple of the page size, size below
the header rounded up to a page multiple (4096), or size / page_size not
exceeding the number of preconfigured caches (6). -/
theorem c8_region_init_rejects_bad_arguments (address size : Nat)
    (h : address % PAGE_SIZE ≠ 0 ∨ size % PAGE_SIZE ≠ 0 ∨ size < header_pages ∨
         size / PAGE_SIZE ≤ num_alloc_caches) :
    region_init address size = none := by
  by_cases ha : address &&& PAGE_MASK ≠ address
  · rw [region_init, if_pos ha]
  · push_neg at ha
    have hs : size &&& PAGE_MASK ≠ size ∨ size < header_pages ∨
        size / PAGE_SIZE ≤ num_alloc_caches := by
      rcases h with h | h | h | h
      · exact absurd (and_mask_mod address ha) h
      · exact Or.inl (fun hsz => h (and_mask_mod size hsz))
      · exact Or.inr (Or.inl h)
      · exact Or.inr (Or.inr h)
    rw [region_init, if_neg (not_not_intro ha), if_pos hs]

/-- Witness for C8, at the claim's own boundary case: a single-page region
(size = page_size, so size / page_size = 1 is not above 6) is rejected. -/
theorem c8_region_init_rejects_bad_arguments_witness :
    ((0 : Nat) % PAGE_SIZE ≠ 0 ∨ (4096 : Nat) % PAGE_SIZE ≠ 0 ∨
      (4096 : Nat) < header_pages ∨ (4096 : Nat) / PAGE_SIZE ≤ num_alloc_caches) ∧
    region_init 0 4096 = none :=
  ⟨by decide, c8_region_init_rejects_bad_arguments 0 4096 (by decide)⟩

/-- C9: unswizzle(region, swizzle(region, o)) = o for every offset o
representable in a 64-bit word; swizzle adds the region base and unswizzle
subtracts it, in modular uintptr_t arithmetic, with no validation. -/
theorem c9_swizzle_unswizzle_roundtrip (base object : Nat) (h : object < W64) :
    unswizzle base (swizzle base object) = object := by
  unfold swizzle unswizzle W64 at *
  omega

/-- Witness for C9 at the offset returned by alloc in the 96-page scenario. -/
theorem c9_swizzle_unswizzle_roundtrip_witness :
    (4224 : Nat) < W64 ∧ unswizzle 65536 (swizzle 65536 4224) = 4224 :=
  ⟨by decide, c9_swizzle_unswizzle_roundtrip 65536 4224 (by decide)⟩

/-- C10 counterexample: in a state reachable by region_init(0, 393216)
followed by one region_alloc(region, 64) (which returns 4224),
region_free(region, 4224) does not leave the region unchanged: it dispatches
to cache_free (the byte is_cache_object probes, offset 4416, lies beyond the
heap bitmap inside the slab page and is non-zero there) and rewrites the
slab's free-object list head at offset 4136 from 0 to 128 (the low byte of
4224). -/
theorem c10_free_modifies_alloc_only_state :
    alloc96.1 = 4224 ∧
    readByte m96a 4136 = 0 ∧
    region_free 10 m96a 4224 = some m96f ∧
    readByte m96f 4136 = 128 := by decide

/-- C10 amended: region_free(region, o) leaves the region unchanged exactly
when is_cache_object(region, o) is false (or a range/alignment guard fires);
it is not a universal no-op after init and allocs, because is_cache_object's
probe reads byte heap_bits + (o & ~(page_size - 1)) / 8, an index that lies
beyond the heap bitmap and can land on non-zero slab bytes even though no
heap-bitmap bit is ever set on the allocation path. -/
theorem c10_free_noop_unless_cache_probe (fuel : Nat) (m : Mem) (object : Nat)
    (h : is_cache_object m object = false) :
    region_free fuel m object = some m := by
  unfold region_free
  split_ifs with h1 h2 h3
  · rfl
  · rfl
  · rw [h] at h3; exact absurd h3 (by simp)
  · rfl

/-- Witness for the amended C10: on the 7-page state after one alloc, the
probe is zero for object 4608 and region_free leaves the memory unchanged. -/
theorem c10_free_noop_unless_cache_probe_witness :
    is_cache_object m7a 4608 = false ∧ region_free 5 m7a 4608 = some m7a :=
  ⟨by decide, c10_free_noop_unless_cache_probe 5 m7a 4608 (by decide)⟩

end Region



